import Mathlib

/-!
Verification of the AEO reporting backend (DuckDB service and FastAPI routes).

This file gives a shallow embedding of the data model and the query
operations of `duckdb_service.py` and `duckdb_routes.py`:

* a loaded table is a list of rows, each row an association list from
  column name to an optional string cell (SQL NULL is `none`; every value
  in the source is stored as text);
* each service method is translated into an executable Lean function over
  that table, following the SQL string the source assembles (DISTINCT is
  `List.dedup`, ORDER BY is `List.insertionSort`, WHERE is `List.filter`,
  `TRY_CAST(x AS DATE)` is a partial ISO-date parser returning `Option`,
  `CAST(x AS DATE)` errors when the parse fails);
* Python `round(x, 2)` on the (exactly representable) ratios is modelled
  as exact rational rounding to two decimals.

Theorems about these functions settle the specification claims.
-/

namespace AEO

/-! ## Python string helpers (strings are modelled as their char lists) -/

/-- Whitespace characters removed by Python `str.strip()` (ASCII range). -/
def pyWs (c : Char) : Bool :=
  c = ' ' || c = '\t' || c = '\n' || c = '\r' || c = Char.ofNat 11 || c = Char.ofNat 12

/-- Python `str.lstrip()` on a char list. -/
def lstripChars (l : List Char) : List Char := l.dropWhile pyWs

/-- Python `str.rstrip()` on a char list. -/
def rstripChars (l : List Char) : List Char := (l.reverse.dropWhile pyWs).reverse

/-- Python `str.strip()` on a char list. -/
def stripChars (l : List Char) : List Char := rstripChars (lstripChars l)

/-- Python `str.upper()` on a char list (ASCII uppercasing, via `Char.toUpper`). -/
def upperChars (l : List Char) : List Char := l.map Char.toUpper

/-- Python `str.isdigit()` for an ASCII string: nonempty and all digits. -/
def pyIsdigit (s : String) : Bool := s ≠ "" && s.data.all Char.isDigit

/-- Decimal value of a digit string. -/
def digitsToNat (l : List Char) : Nat :=
  l.foldl (fun n c => 10 * n + (c.toNat - 48)) 0

/-- Python `int(s)`: optional surrounding whitespace, optional sign, digits.
Returns `none` when `int` would raise `ValueError`. -/
def pyInt (s : String) : Option Int :=
  let t := stripChars s.data
  match t with
  | '-' :: ds => if ds ≠ [] && ds.all Char.isDigit then
      some (-(digitsToNat ds : Int)) else none
  | '+' :: ds => if ds ≠ [] && ds.all Char.isDigit then
      some ((digitsToNat ds : Int)) else none
  | ds => if ds ≠ [] && ds.all Char.isDigit then
      some ((digitsToNat ds : Int)) else none

/-! ## SQL dates

`TRY_CAST(v AS DATE)` in DuckDB parses ISO `YYYY-MM-DD` text and yields
NULL on failure; `CAST` raises a conversion error instead.  We model the
parse for the ISO format, validating month and day ranges. -/

/-- A parsed SQL DATE value. -/
structure SqlDate where
  year : Nat
  month : Nat
  day : Nat
deriving DecidableEq, Repr

/-- Split a char list on a separator (the char-level `splitOn`). -/
def splitFields (sep : Char) : List Char → List (List Char)
  | [] => [[]]
  | c :: cs =>
    let rest := splitFields sep cs
    if c = sep then [] :: rest
    else match rest with
      | f :: fs => (c :: f) :: fs
      | [] => [[c]]

/-- Parse one dash-separated decimal field. -/
def parseNatField (l : List Char) : Option Nat :=
  if l ≠ [] && l.all Char.isDigit then some (digitsToNat l) else none

/-- DuckDB `TRY_CAST(s AS DATE)`: ISO `YYYY-MM-DD`, `none` when unparseable. -/
def tryCastDate (s : String) : Option SqlDate :=
  match splitFields '-' s.data with
  | [ys, ms, ds] =>
    match parseNatField ys, parseNatField ms, parseNatField ds with
    | some y, some m, some d =>
      if 1 ≤ m && m ≤ 12 && 1 ≤ d && d ≤ 31 then some ⟨y, m, d⟩ else none
    | _, _, _ => none
  | _ => none

/-- SQL `CEIL(month / 3.0)` from the quarterly-demand queries. -/
def sqlQuarter (m : Nat) : Nat := (m + 2) / 3

/-! ## Data model: rows and tables -/

/-- One row of the loaded table: column name to optional text cell.
`none` is SQL NULL. -/
structure Row where
  cells : List (String × Option String)
deriving DecidableEq, Repr

/-- Cell access, as a SQL column reference: NULL when the cell is NULL
or the column is absent from the row. -/
def Row.getCell (r : Row) (c : String) : Option String :=
  match r.cells.lookup c with
  | some v => v
  | none => none

/-- The loaded table: the schema column names and the data rows. -/
structure Table where
  cols : List String
  rows : List Row
deriving DecidableEq, Repr

/-- SQL condition `"c" IS NOT NULL AND "c" != ''` on one row. -/
def nonNullNonEmpty (v : Option String) : Bool :=
  match v with
  | some s => s ≠ ""
  | none => false

/-! ## Schema resolution (`_create_indexes`, duckdb_service.py lines 217-228)

Each semantic field picks the underscore spelling when present, else the
documented alternate spelling. -/

/-- The resolved column names stored on the service instance. -/
structure Schema where
  program_col : String
  config_col : String
  part_col : String
  rm_supplier_col : String
  supplier_col : String
  supplier_type_col : String
  hw_owner_col : String
  module_col : Option String
  esn_col : String
  target_date_col : String
  level2_pn_col : String
  level2_raw_type_col : String
deriving DecidableEq, Repr

/-- Column-name detection from `_create_indexes`. -/
def resolveSchema (column_names : List String) : Schema where
  program_col := if column_names.contains "ENGINE_PROGRAM" then "ENGINE_PROGRAM" else "ENGINE PROGRAM"
  config_col := if column_names.contains "Configuration" then "Configuration" else "CONFIGURATION"
  part_col := if column_names.contains "Part_Number" then "Part_Number" else "Part Number"
  rm_supplier_col := if column_names.contains "Level_2_Raw_Material_Supplier" then "Level_2_Raw_Material_Supplier" else "Level 2 Raw Material Supplier"
  supplier_col := if column_names.contains "Parent_Part_Supplier" then "Parent_Part_Supplier" else "Parent Part Supplier"
  supplier_type_col := if column_names.contains "Supplier_Type" then "Supplier_Type" else "Supplier Type"
  hw_owner_col := if column_names.contains "HW_OWNER" then "HW_OWNER" else "HW OWNER"
  module_col := if column_names.contains "Module" then some "Module" else none
  esn_col := if column_names.contains "ESN" then "ESN" else "esn"
  target_date_col := if column_names.contains "Target_Ship_Date" then "Target_Ship_Date" else "Target Ship Date"
  level2_pn_col := if column_names.contains "Level_2_PN" then "Level_2_PN" else "Level 2 PN"
  level2_raw_type_col := if column_names.contains "Level_2_Raw_Type" then "Level_2_Raw_Type" else "Level 2 Raw Type"

/-! ## `get_unique_values` (duckdb_service.py lines 384-420) -/

/-- The `column_map` dict inside `get_unique_values`. -/
def columnMap (s : Schema) : List (String × String) :=
  [("ENGINE_PROGRAM", s.program_col),
   ("Configuration", s.config_col),
   ("Part_Number", s.part_col),
   ("Level_2_Raw_Material_Supplier", s.rm_supplier_col),
   ("Parent_Part_Supplier", s.supplier_col),
   ("HW_OWNER", s.hw_owner_col),
   ("Module", s.level2_raw_type_col),
   ("Level_2_Raw_Type", s.level2_raw_type_col),
   ("Level_2_PN", s.level2_pn_col),
   ("Target_Ship_Date", s.target_date_col),
   ("ESN", s.esn_col)]

/-- `column_map.get(column, column)` followed by the `Module` special case. -/
def actualColumn (s : Schema) (column : String) : String :=
  let mapped := match (columnMap s).lookup column with
    | some c => c
    | none => column
  if column = "Module" then s.level2_raw_type_col else mapped

/-- Ascending sort used for SQL `ORDER BY value` (DuckDB binary collation is
modelled by the code-point order on strings). -/
def sortAsc (l : List String) : List String := List.insertionSort (· ≤ ·) l

/-- `get_unique_values`: `SELECT DISTINCT "c" FROM t WHERE "c" IS NOT NULL
AND "c" != '' ORDER BY value`. -/
def get_unique_values (t : Table) (column : String) : List String :=
  let c := actualColumn (resolveSchema t.cols) column
  sortAsc ((t.rows.filterMap (fun r =>
    match r.getCell c with
    | some v => if v ≠ "" then some v else none
    | none => none)).dedup)

/-! ## `filter_data` (duckdb_service.py lines 469-508)

The WHERE clause is a conjunction of one IN clause per filter column with a
nonempty value list.  The code numbers the placeholders `$0 … $(n-1)` afresh
for every column and stores them all in one `params` dict, so a later
column's values overwrite an earlier column's entries; the evaluation below
reproduces that: each clause of length `n` reads indices `0 … n-1` from the
final parameter assignment. -/

/-- The emitted IN clauses: filter column paired with its placeholder count. -/
def filterClauses (filters : List (String × List String)) : List (String × Nat) :=
  filters.filterMap (fun f =>
    match f.2 with
    | [] => none
    | vs => some (f.1, vs.length))

/-- All writes `params[$i] = v` in loop order. -/
def filterParamWrites (filters : List (String × List String)) : List (Nat × String) :=
  filters.foldl (fun acc f => acc ++ f.2.enum) []

/-- The final value bound to placeholder `$i` (the last write wins). -/
def finalParam (filters : List (String × List String)) (i : Nat) : Option String :=
  (filterParamWrites filters).reverse.lookup i

/-- A row satisfies one IN clause: the cell is non-NULL and equal to one of
the values the clause's placeholders resolve to. -/
def rowMatchesClause (filters : List (String × List String)) (r : Row)
    (cl : String × Nat) : Bool :=
  match r.getCell cl.1 with
  | some v => (List.range cl.2).any (fun i => finalParam filters i = some v)
  | none => false

/-- `filter_data`: with no clauses `SELECT *`, else filter by the conjunction. -/
def filter_data (t : Table) (filters : List (String × List String)) : List Row :=
  let clauses := filterClauses filters
  if clauses.isEmpty then t.rows
  else t.rows.filter (fun r => clauses.all (rowMatchesClause filters r))

/-! ## `filter_datatable` (duckdb_routes.py lines 386-501) -/

/-- The `col_map` dict built at duckdb_routes.py lines 415-424. -/
structure DatatableColMap where
  engineProgram : String
  configuration : Option String
  parentPartSupplier : String
  rmSupplier : String
  hwOwner : String
  module : Option String
  level1PN : String
  targetShipDate : String
deriving DecidableEq, Repr

/-- Column mapping of the datatable route. -/
def datatableColMap (column_names : List String) : DatatableColMap where
  engineProgram := if column_names.contains "ENGINE_PROGRAM" then "ENGINE_PROGRAM" else "ENGINE PROGRAM"
  configuration := if column_names.contains "Configuration" then some "Configuration" else none
  parentPartSupplier := if column_names.contains "Parent_Part_Supplier" then "Parent_Part_Supplier" else "Parent Part Supplier"
  rmSupplier := if column_names.contains "Level_2_Raw_Material_Supplier" then "Level_2_Raw_Material_Supplier" else "Level 2 Raw Material Supplier"
  hwOwner := if column_names.contains "HW_Owner" then "HW_Owner" else "HW OWNER"
  module := if column_names.contains "Module" then some "Module" else none
  level1PN := if column_names.contains "Level_1_PN" then "Level_1_PN" else "Part Number"
  targetShipDate := if column_names.contains "Target_Ship_Date" then "Target_Ship_Date" else "Target Ship Date"

/-- The query parameters of `POST /api/datatable/filter` (absent = `none`). -/
structure DatatableReq where
  productLines : Option (List String)
  year : Option String
  configs : Option (List String)
  suppliers : Option (List String)
  rmSuppliers : Option (List String)
  hwOwners : Option (List String)
  modules : Option (List String)
  partNumbers : Option (List String)
deriving DecidableEq, Repr

/-- The request with every filter absent. -/
def DatatableReq.empty : DatatableReq :=
  ⟨none, none, none, none, none, none, none, none⟩

/-- SQL `"c" IN (v₁, …, vₙ)` with a non-NULL cell required. -/
def inClauseB (cell : Option String) (vs : List String) : Bool :=
  match cell with
  | some v => vs.contains v
  | none => false

/-- A clause guarded by Python truthiness of the parameter (`if xs:`):
`None` or the empty list emit no clause and match every row. -/
def optInClause (cell : Option String) (o : Option (List String)) : Bool :=
  match o with
  | some (v :: vs) => inClauseB cell (v :: vs)
  | _ => true

/-- A clause additionally guarded by the mapped column existing
(`if xs and col_map[…]:`). -/
def optInClauseCol (r : Row) (c : Option String) (o : Option (List String)) : Bool :=
  match c, o with
  | some col, some (v :: vs) => inClauseB (r.getCell col) (v :: vs)
  | _, _ => true

/-- SQL `YEAR(TRY_CAST("date" AS DATE)) = ?` (NULL never equals). -/
def yearClause (cell : Option String) (y : Int) : Bool :=
  match cell with
  | some s =>
    match tryCastDate s with
    | some d => (d.year : Int) = y
    | none => false
  | none => false

/-- The conjunction of WHERE clauses of `filter_datatable` (no clause at all
is the code's `1=1`). -/
def rowMatchesDatatable (m : DatatableColMap) (req : DatatableReq)
    (yv : Option Int) (r : Row) : Bool :=
  optInClause (r.getCell m.engineProgram) req.productLines &&
  (match yv with
   | some y => yearClause (r.getCell m.targetShipDate) y
   | none => true) &&
  optInClauseCol r m.configuration req.configs &&
  optInClause (r.getCell m.parentPartSupplier) req.suppliers &&
  optInClause (r.getCell m.rmSupplier) req.rmSuppliers &&
  optInClause (r.getCell m.hwOwner) req.hwOwners &&
  optInClauseCol r m.module req.modules &&
  optInClause (r.getCell m.level1PN) req.partNumbers

/-- The JSON envelope of `POST /api/datatable/filter`. -/
structure DatatableResp where
  status : String
  total : Nat
  skip : Nat
  limit : Nat
  hasMore : Bool
  returned_rows : Nat
  data : List Row
deriving DecidableEq, Repr

/-- Build the response: the count query has no LIMIT/OFFSET, the data query
is `LIMIT limit OFFSET skip` over the same WHERE clause. -/
def mkDatatableResp (t : Table) (m : DatatableColMap) (req : DatatableReq)
    (yv : Option Int) (skip limit : Nat) : DatatableResp :=
  let matching := t.rows.filter (rowMatchesDatatable m req yv)
  let total := matching.length
  let data := (matching.drop skip).take limit
  ⟨"success", total, skip, limit, decide (skip + limit < total), data.length, data⟩

/-- `filter_datatable`: parses the `year` parameter with Python `int`
(`.error` is the endpoint's 500 on `ValueError`), then runs count and data
queries. -/
def filter_datatable (t : Table) (req : DatatableReq) (skip limit : Nat) :
    Except String DatatableResp :=
  let m := datatableColMap t.cols
  match req.year with
  | some ys =>
    if ys ≠ "" then
      match pyInt ys with
      | some yv => .ok (mkDatatableResp t m req (some yv) skip limit)
      | none => .error "invalid literal for int() with base 10"
    else .ok (mkDatatableResp t m req none skip limit)
  | none => .ok (mkDatatableResp t m req none skip limit)

/-! ## `get_years_from_date` (duckdb_service.py lines 422-467) -/

/-- Descending sort for SQL `ORDER BY year DESC`. -/
def sortDesc (l : List String) : List String := List.insertionSort (fun a b => b ≤ a) l

/-- Primary strategy: `SELECT DISTINCT CAST(YEAR(TRY_CAST("c" AS DATE)) AS
VARCHAR) … WHERE "c" IS NOT NULL AND "c" != '' AND TRY_CAST("c" AS DATE) IS
NOT NULL ORDER BY year DESC`, then the `if row[0]` comprehension filter. -/
def yearsStrategyCast (t : Table) (c : String) : List String :=
  (sortDesc ((t.rows.filterMap (fun r =>
    match r.getCell c with
    | some s => if s ≠ "" then (tryCastDate s).map (fun d => toString d.year) else none
    | none => none)).dedup)).filter (fun y => y ≠ "")

/-- The last four characters of a string:
`SUBSTRING("c", LENGTH("c") - 3, 4)`. -/
def last4 (s : String) : String := String.mk (s.data.drop (s.length - 4))

/-- Fallback strategy: the last four characters of every value of length at
least 4, kept when `row[0].isdigit()`. -/
def yearsStrategySubstring (t : Table) (c : String) : List String :=
  (sortDesc ((t.rows.filterMap (fun r =>
    match r.getCell c with
    | some s => if s ≠ "" && s.length ≥ 4 then some (last4 s) else none
    | none => none)).dedup)).filter (fun y => y ≠ "" && pyIsdigit y)

/-- The hard-coded fallback year list. -/
def fallbackYears : List String := ["2025", "2026", "2027", "2028"]

/-- The column actually queried: the date synonyms map to the resolved
target-date column. -/
def yearsResolvedColumn (t : Table) (column : String) : String :=
  if column = "Target_Ship_Date" || column = "Target Ship Date"
    then (resolveSchema t.cols).target_date_col else column

/-- `get_years_from_date`: primary strategy, else substring fallback, else
the fixed fallback list. -/
def get_years_from_date (t : Table) (column : String) : List String :=
  let c := yearsResolvedColumn t column
  let years := yearsStrategyCast t c
  let years := if years.isEmpty then yearsStrategySubstring t c else years
  if years.isEmpty then fallbackYears else years

/-! ## Grouped-count distributions (duckdb_service.py lines 934-988 and
1063-1111) -/

/-- Python `round(q, 2)` modelled as exact rational rounding to 2 decimals. -/
def round2 (q : ℚ) : ℚ := ((round (100 * q) : ℤ) : ℚ) / 100

/-- One entry of a grouped-count distribution. -/
structure DistEntry where
  label : String
  count : Nat
  percentage : ℚ
deriving DecidableEq, Repr

/-- Rows passing the WHERE clause of `get_supplier_type_distribution`. -/
def supplierTypeFilteredRows (t : Table) : List Row :=
  let sch := resolveSchema t.cols
  t.rows.filter (fun r =>
    nonNullNonEmpty (r.getCell "Supplier_Type") &&
    nonNullNonEmpty (r.getCell sch.supplier_col))

/-- `COUNT(DISTINCT "val")` over the rows of one group. -/
def distinctInGroup (rows : List Row) (keyCol : String) (key : String)
    (valCol : String) : Nat :=
  (((rows.filter (fun r => r.getCell keyCol = some key)).filterMap
    (fun r => r.getCell valCol)).dedup).length

/-- The distinct group keys, in SQL DISTINCT fashion. -/
def distKeys (rows : List Row) (keyCol : String) : List String :=
  (rows.filterMap (fun r => r.getCell keyCol)).dedup

/-- Each group key with its distinct-value count. -/
def distPairs (rows : List Row) (keyCol valCol : String) :
    List (String × Nat) :=
  (distKeys rows keyCol).map (fun k => (k, distinctInGroup rows keyCol k valCol))

/-- The grouped counts in `ORDER BY count DESC` order. -/
def distSorted (rows : List Row) (keyCol valCol : String) :
    List (String × Nat) :=
  List.insertionSort (fun a b => b.2 ≤ a.2) (distPairs rows keyCol valCol)

/-- `total = sum(row[1] for row in result)`. -/
def distTotal (rows : List Row) (keyCol valCol : String) : Nat :=
  ((distPairs rows keyCol valCol).map Prod.snd).sum

/-- Shared shaping: group, count distinct, sort by count descending, then
attach `round(count / total * 100, 2)` with `total` the sum of the counts
(0 when `total` is 0). -/
def distributionOf (rows : List Row) (keyCol valCol : String) : List DistEntry :=
  (distSorted rows keyCol valCol).map (fun p =>
    ⟨p.1, p.2, if distTotal rows keyCol valCol > 0 then
      round2 ((p.2 : ℚ) / (distTotal rows keyCol valCol : ℚ) * 100) else 0⟩)

/-- `get_supplier_type_distribution`: requires the literal `Supplier_Type`
column, groups it, and counts distinct parent-part suppliers per type. -/
def get_supplier_type_distribution (t : Table) : List DistEntry :=
  if ¬ t.cols.contains "Supplier_Type" then []
  else distributionOf (supplierTypeFilteredRows t) "Supplier_Type"
    (resolveSchema t.cols).supplier_col

/-- SQL `v IS NOT NULL AND v != '' AND v != 'NaN' AND v != 'nan'`. -/
def notNanCell (v : Option String) : Bool :=
  nonNullNonEmpty v && v ≠ some "NaN" && v ≠ some "nan"

/-- Rows passing the WHERE clause of `get_rm_supplier_by_raw_material`. -/
def rmRawMaterialFilteredRows (t : Table) : List Row :=
  let sch := resolveSchema t.cols
  t.rows.filter (fun r =>
    notNanCell (r.getCell sch.level2_raw_type_col) &&
    notNanCell (r.getCell sch.rm_supplier_col))

/-- `get_rm_supplier_by_raw_material`: groups raw-material type and counts
distinct RM suppliers per type, excluding NULL, empty, `NaN` and `nan`. -/
def get_rm_supplier_by_raw_material (t : Table) : List DistEntry :=
  let sch := resolveSchema t.cols
  distributionOf (rmRawMaterialFilteredRows t) sch.level2_raw_type_col
    sch.rm_supplier_col

/-! ## `get_supplier_details_by_type` (duckdb_service.py lines 1253-1337)

The quarterly query selects
`CAST(EXTRACT(YEAR FROM CAST(date AS DATE)) AS INTEGER)` and
`CAST(CEIL(EXTRACT(MONTH FROM CAST(date AS DATE)) / 3.0) AS INTEGER)`.
The inner `CAST` (not `TRY_CAST`) raises a conversion error as soon as any
selected row holds a non-NULL unparseable date; the Python `except` then
returns `[]`.  A NULL date yields NULL year and quarter. -/

/-- Python `x or default` on an optional text cell (`None` and `""` are
falsy). -/
def pyOr (v : Option String) (d : String) : String :=
  match v with
  | some s => if s = "" then d else s
  | none => d

/-- Python `str(…)` of an optional value inside an f-string. -/
def pyStrOpt (o : Option String) : String :=
  match o with
  | some s => s
  | none => "None"

/-- A row of `supplier_details` whose date cell is non-NULL but unparseable:
exactly the rows on which the `CAST(… AS DATE)` raises. -/
def badDateRow (sch : Schema) (r : Row) : Bool :=
  match r.getCell sch.target_date_col with
  | some s => (tryCastDate s).isNone
  | none => false

/-- Year and quarter selected from the date cell.  Only evaluated on rows
without a bad date (see `badDateRow`); a NULL date gives `none`. -/
def dateYQ (sch : Schema) (r : Row) : Option (Nat × Nat) :=
  match r.getCell sch.target_date_col with
  | some s => (tryCastDate s).map (fun d => (d.year, sqlQuarter d.month))
  | none => none

/-- The Python `quarter_key = f"{year}-Q{quarter}"` (NULL year and quarter
print as `None`). -/
def quarterKeyStr (yq : Option (Nat × Nat)) : String :=
  match yq with
  | some p => toString p.1 ++ "-Q" ++ toString p.2
  | none => "None-QNone"

/-- Rows passing the WHERE clause of the supplier-details query. -/
def supplierDetailsRows (t : Table) (supplier_type : String) : List Row :=
  let sch := resolveSchema t.cols
  t.rows.filter (fun r =>
    r.getCell sch.supplier_type_col = some supplier_type &&
    notNanCell (r.getCell sch.supplier_col) &&
    nonNullNonEmpty (r.getCell sch.part_col))

/-- The GROUP BY key of the quarterly supplier-details query. -/
structure SupplierGroupKey where
  supplier : Option String
  part : Option String
  desc : Option String
  hwo : Option String
  qpe : Option String
  yq : Option (Nat × Nat)
deriving DecidableEq, Repr

/-- The grouping key of one row. -/
def supplierGroupKey (sch : Schema) (r : Row) : SupplierGroupKey where
  supplier := r.getCell sch.supplier_col
  part := r.getCell sch.part_col
  desc := r.getCell "Part_Description"
  hwo := r.getCell sch.hw_owner_col
  qpe := r.getCell "QPE"
  yq := dateYQ sch r

/-- SQL ascending order on nullable values, NULLs last. -/
def optLe (a b : Option String) : Bool :=
  match a, b with
  | some x, some y => x ≤ y
  | some _, none => true
  | none, some _ => false
  | none, none => true

/-- SQL ascending order on nullable integers, NULLs last. -/
def optNatLe (a b : Option Nat) : Bool :=
  match a, b with
  | some x, some y => x ≤ y
  | some _, none => true
  | none, some _ => false
  | none, none => true

/-- `ORDER BY supplier, part_number, year, quarter`. -/
def supplierKeyLe (a b : SupplierGroupKey) : Bool :=
  if a.supplier = b.supplier then
    if a.part = b.part then
      if a.yq.map Prod.fst = b.yq.map Prod.fst then
        optNatLe (a.yq.map Prod.snd) (b.yq.map Prod.snd)
      else optNatLe (a.yq.map Prod.fst) (b.yq.map Prod.fst)
    else optLe a.part b.part
  else optLe a.supplier b.supplier

/-- The grouped and ordered rows of the quarterly CTE: each key with
`COUNT(*)` of its rows. -/
def supplierQuarterlyGroups (sch : Schema) (rows : List Row) :
    List (SupplierGroupKey × Nat) :=
  let keys := (rows.map (supplierGroupKey sch)).dedup
  let sorted := List.insertionSort (fun a b => supplierKeyLe a b = true) keys
  sorted.map (fun k => (k, rows.countP (fun r => supplierGroupKey sch r = k)))

/-- One entry of the supplier-details response. -/
structure SupplierDetail where
  name : String
  partNumber : String
  description : String
  hwo : String
  level : String
  qpe : String
  mfgLT : String
  quarters : List (String × Nat)
deriving DecidableEq, Repr

/-- Assign into the `quarters` dict (overwrite an existing key, else add). -/
def setQuarter (qs : List (String × Nat)) (k : String) (v : Nat) :
    List (String × Nat) :=
  match qs.lookup k with
  | some _ => qs.map (fun p => if p.1 = k then (k, v) else p)
  | none => qs ++ [(k, v)]

/-- The `supplier_map` accumulation step for one grouped result row
(dict key `f"{supplier}|{part_number}"`). -/
def supplierMapStep (acc : List SupplierDetail) (k : SupplierGroupKey)
    (count : Nat) : List SupplierDetail :=
  let mk := pyStrOpt k.supplier ++ "|" ++ pyStrOpt k.part
  let qk := quarterKeyStr k.yq
  if acc.any (fun e => e.name ++ "|" ++ e.partNumber = mk) then
    acc.map (fun e =>
      if e.name ++ "|" ++ e.partNumber = mk then
        { e with quarters := setQuarter e.quarters qk count }
      else e)
  else
    acc ++ [⟨pyStrOpt k.supplier, pyStrOpt k.part, pyOr k.desc "Part",
      pyOr k.hwo "HW1", "L1", pyOr k.qpe "-", "-", [(qk, count)]⟩]

/-- `get_supplier_details_by_type`: runs the quarterly query and reshapes;
when a selected row has a non-NULL unparseable date, the SQL `CAST` raises,
the exception is caught, and the function returns `[]`. -/
def get_supplier_details_by_type (t : Table) (supplier_type : String) :
    List SupplierDetail :=
  let sch := resolveSchema t.cols
  let rows := supplierDetailsRows t supplier_type
  if rows.any (badDateRow sch) then []
  else (supplierQuarterlyGroups sch rows).foldl
    (fun acc kc => supplierMapStep acc kc.1 kc.2) []

/-! ## `get_cdata` (duckdb_service.py lines 674-727)

This monthly aggregation uses `TRY_CAST`, so an unparseable date makes
year, month name and month number NULL instead of raising; the row is kept
and grouped under the NULL key. -/

/-- Rows passing the WHERE clause of the cdata query. -/
def cdataRows (t : Table) : List Row :=
  let sch := resolveSchema t.cols
  t.rows.filter (fun r =>
    nonNullNonEmpty (r.getCell sch.program_col) &&
    (r.getCell sch.target_date_col).isSome &&
    (r.getCell sch.esn_col).isSome)

/-- Year and month of the `TRY_CAST` of the date cell (`none` when the cell
is NULL or unparseable). -/
def cdataYM (sch : Schema) (r : Row) : Option (Nat × Nat) :=
  match r.getCell sch.target_date_col with
  | some s => (tryCastDate s).map (fun d => (d.year, d.month))
  | none => none

/-- The GROUP BY key of the cdata query: program and the (nullable) parsed
year and month. -/
def cdataKey (sch : Schema) (r : Row) : Option String × Option (Nat × Nat) :=
  (r.getCell sch.program_col, cdataYM sch r)

/-- DuckDB `MONTHNAME` for months 1-12. -/
def monthNameOf (m : Nat) : String :=
  match m with
  | 1 => "January" | 2 => "February" | 3 => "March" | 4 => "April"
  | 5 => "May" | 6 => "June" | 7 => "July" | 8 => "August"
  | 9 => "September" | 10 => "October" | 11 => "November" | 12 => "December"
  | _ => ""

/-- One transformed cdata record. -/
structure CdataEntry where
  pl : String
  mon : String
  year : Option Nat
  no : Nat
deriving DecidableEq, Repr

/-- `ORDER BY year, month_num, program` (NULLs last). -/
def cdataKeyLe (a b : Option String × Option (Nat × Nat)) : Bool :=
  if a.2.map Prod.fst = b.2.map Prod.fst then
    if a.2.map Prod.snd = b.2.map Prod.snd then optLe a.1 b.1
    else optNatLe (a.2.map Prod.snd) (b.2.map Prod.snd)
  else optNatLe (a.2.map Prod.fst) (b.2.map Prod.fst)

/-- `get_cdata`: group, count distinct ESNs, and transform.  The month
abbreviation is the first three letters of the month name, `"Jan"` when the
name is NULL. -/
def get_cdata (t : Table) : List CdataEntry :=
  let sch := resolveSchema t.cols
  let rows := cdataRows t
  let keys := (rows.map (cdataKey sch)).dedup
  let sorted := List.insertionSort (fun a b => cdataKeyLe a b = true) keys
  sorted.map (fun k =>
    let grp := rows.filter (fun r => cdataKey sch r = k)
    let esns := (grp.filterMap (fun r => r.getCell sch.esn_col)).dedup
    { pl := pyStrOpt k.1
      mon := match k.2 with
        | some p => String.mk ((monthNameOf p.2).data.take 3)
        | none => "Jan"
      year := k.2.map Prod.fst
      no := esns.length })

/-! ## `get_rm_supplier_details_by_raw_material` (duckdb_service.py lines
1113-1251)

Same quarterly shape as the supplier details, but with six optional filter
conditions appended to the WHERE clause.  The `years` condition wraps the
date in a plain `CAST`, so evaluating it on a row with a non-NULL
unparseable date raises; the conjuncts are modelled evaluated per row in
the order the code appends them.  As in the supplier-details query, the
selected year/quarter `CAST` raises when any WHERE-matching row has a
non-NULL unparseable date, and the Python `except` turns either error into
an empty list. -/

/-- The optional `filters` dict of the RM-supplier details endpoint. -/
structure RmFilters where
  product_lines : Option (List String)
  years : Option (List String)
  configs : Option (List String)
  suppliers : Option (List String)
  hw_owners : Option (List String)
  part_numbers : Option (List String)
deriving DecidableEq, Repr

/-- The `filters` dict with no entries. -/
def RmFilters.empty : RmFilters := ⟨none, none, none, none, none, none⟩

/-- The seven fixed WHERE conditions of the RM-details query. -/
def rmDetailsBaseCond (sch : Schema) (raw_material_type : String)
    (r : Row) : Bool :=
  r.getCell sch.level2_raw_type_col = some raw_material_type &&
  notNanCell (r.getCell sch.rm_supplier_col) &&
  nonNullNonEmpty (r.getCell sch.level2_pn_col)

/-- The `years` condition
`CAST(EXTRACT(YEAR FROM CAST(date AS DATE)) AS VARCHAR) IN (…)`: NULL
dates compare as NULL (no match), and the plain `CAST` raises on a
non-NULL unparseable date. -/
def yearsCondition (sch : Schema) (vs : List String) (r : Row) :
    Except Unit Bool :=
  match r.getCell sch.target_date_col with
  | none => .ok false
  | some s =>
    match tryCastDate s with
    | some d => .ok (vs.contains (toString d.year))
    | none => .error ()

/-- The pure filter conditions appended after `years`. -/
def rmDetailsTailCond (sch : Schema) (f : RmFilters) (r : Row) : Bool :=
  optInClause (r.getCell sch.config_col) f.configs &&
  optInClause (r.getCell sch.supplier_col) f.suppliers &&
  optInClause (r.getCell sch.hw_owner_col) f.hw_owners &&
  optInClause (r.getCell sch.part_col) f.part_numbers

/-- One row against the assembled WHERE clause: `.error` when the `years`
`CAST` raises on it. -/
def rmDetailsRowMatch (sch : Schema) (raw_material_type : String)
    (f : RmFilters) (r : Row) : Except Unit Bool :=
  if rmDetailsBaseCond sch raw_material_type r = false then .ok false
  else if optInClause (r.getCell sch.program_col) f.product_lines = false then
    .ok false
  else
    match f.years with
    | some (v :: vs) =>
      (yearsCondition sch (v :: vs) r).map
        (fun b => b && rmDetailsTailCond sch f r)
    | _ => .ok (rmDetailsTailCond sch f r)

/-- The WHERE evaluation over the table: the matching rows in order, or the
first raised error. -/
def rmDetailsWhere (t : Table) (raw_material_type : String) (f : RmFilters) :
    Except Unit (List Row) :=
  let sch := resolveSchema t.cols
  t.rows.foldr (fun r acc =>
    match rmDetailsRowMatch sch raw_material_type f r, acc with
    | .error e, _ => .error e
    | _, .error e => .error e
    | .ok b, .ok l => .ok (if b then r :: l else l)) (.ok [])

/-- The GROUP BY key of the RM-details CTE. -/
structure RmGroupKey where
  rm_supplier : Option String
  rm_part_number : Option String
  parent_part_no : Option String
  parent_part_supplier : Option String
  part_description : Option String
  hwo : Option String
  qpe : Option String
  total_lt : Option String
  yq : Option (Nat × Nat)
deriving DecidableEq, Repr

/-- The grouping key of one row. -/
def rmGroupKey (sch : Schema) (r : Row) : RmGroupKey where
  rm_supplier := r.getCell sch.rm_supplier_col
  rm_part_number := r.getCell sch.level2_pn_col
  parent_part_no := r.getCell sch.part_col
  parent_part_supplier := r.getCell sch.supplier_col
  part_description := r.getCell "Part_Description"
  hwo := r.getCell sch.hw_owner_col
  qpe := r.getCell "QPE"
  total_lt := r.getCell "Total_LT"
  yq := dateYQ sch r

/-- `ORDER BY rm_supplier, rm_part_number, year, quarter`. -/
def rmKeyLe (a b : RmGroupKey) : Bool :=
  if a.rm_supplier = b.rm_supplier then
    if a.rm_part_number = b.rm_part_number then
      if a.yq.map Prod.fst = b.yq.map Prod.fst then
        optNatLe (a.yq.map Prod.snd) (b.yq.map Prod.snd)
      else optNatLe (a.yq.map Prod.fst) (b.yq.map Prod.fst)
    else optLe a.rm_part_number b.rm_part_number
  else optLe a.rm_supplier b.rm_supplier

/-- The grouped and ordered rows of the RM quarterly CTE. -/
def rmQuarterlyGroups (sch : Schema) (rows : List Row) :
    List (RmGroupKey × Nat) :=
  let keys := (rows.map (rmGroupKey sch)).dedup
  let sorted := List.insertionSort (fun a b => rmKeyLe a b = true) keys
  sorted.map (fun k => (k, rows.countP (fun r => rmGroupKey sch r = k)))

/-- One entry of the RM-supplier details response. -/
structure RmSupplierDetail where
  name : String
  partNumber : String
  parentPartNo : String
  parentPartSupplier : String
  description : String
  hwo : String
  level : String
  qpe : String
  mfgLT : String
  quarters : List (String × Nat)
deriving DecidableEq, Repr

/-- The `mfgLT` field: `str(total_lt)` unless it is `None` or strips to one
of `''`, `nan`, `NaN`, `None`. -/
def mfgLTStr (v : Option String) : String :=
  match v with
  | none => "-"
  | some s =>
    let st := String.mk (stripChars s.data)
    if st = "" || st = "nan" || st = "NaN" || st = "None" then "-" else s

/-- The `supplier_map` accumulation step of the RM-details reshaping
(dict key `f"{rm_supplier}|{rm_part_number}"`). -/
def rmSupplierMapStep (acc : List RmSupplierDetail) (k : RmGroupKey)
    (count : Nat) : List RmSupplierDetail :=
  let mk := pyStrOpt k.rm_supplier ++ "|" ++ pyStrOpt k.rm_part_number
  let qk := quarterKeyStr k.yq
  if acc.any (fun e => e.name ++ "|" ++ e.partNumber = mk) then
    acc.map (fun e =>
      if e.name ++ "|" ++ e.partNumber = mk then
        { e with quarters := setQuarter e.quarters qk count }
      else e)
  else
    acc ++ [⟨pyStrOpt k.rm_supplier, pyStrOpt k.rm_part_number,
      pyOr k.parent_part_no "-", pyOr k.parent_part_supplier "-",
      pyOr k.part_description "Raw Material Component", pyOr k.hwo "HW1",
      "L2", pyOr k.qpe "-", mfgLTStr k.total_lt, [(qk, count)]⟩]

/-- `get_rm_supplier_details_by_raw_material`: runs the filtered quarterly
query and reshapes; when the WHERE `years` `CAST` raises or a matching row
has a non-NULL unparseable date, the caught exception yields `[]`. -/
def get_rm_supplier_details_by_raw_material (t : Table)
    (raw_material_type : String) (f : RmFilters) : List RmSupplierDetail :=
  let sch := resolveSchema t.cols
  match rmDetailsWhere t raw_material_type f with
  | .error _ => []
  | .ok rows =>
    if rows.any (badDateRow sch) then []
    else (rmQuarterlyGroups sch rows).foldl
      (fun acc kc => rmSupplierMapStep acc kc.1 kc.2) []

/-- The RM-details query raises: either during WHERE evaluation (`years`
cast) or on the selected year/quarter cast of a matching row. -/
def rmDetailsRaises (t : Table) (raw_material_type : String)
    (f : RmFilters) : Bool :=
  match rmDetailsWhere t raw_material_type f with
  | .error _ => true
  | .ok rows => rows.any (badDateRow (resolveSchema t.cols))

/-! ## SELECT-only guard (duckdb_routes.py lines 167-169 and 280-282) -/

/-- The guard of both passthrough endpoints:
`sql.strip().upper().startswith("SELECT")`. -/
def selectGuard (sql : String) : Bool :=
  "SELECT".data.isPrefixOf (upperChars (stripChars sql.data))

/-- Modelled from the spec: the statement begins with `SELECT` compared
case-insensitively after trimming leading whitespace. -/
def specSelectOnly (sql : String) : Bool :=
  upperChars ((lstripChars sql.data).take ("SELECT".data.length)) =
    upperChars "SELECT".data

/-- `GET /api/query`: reject with 400 unless the guard passes, else hand the
statement to DuckDB (`run` abstracts the engine). -/
def execute_query (run : String → List Row) (sql : String) :
    Except Nat (List Row) :=
  if selectGuard sql then .ok (run sql) else .error 400

/-- `GET /api/output-query`: 404 when the Output sheet is not loaded, then
the same guard. -/
def query_output_data (run : String → List Row) (outputLoaded : Bool)
    (sql : String) : Except Nat (List Row) :=
  if ¬ outputLoaded then .error 404
  else if selectGuard sql then .ok (run sql) else .error 400

/-! ## Gap analysis (duckdb_routes.py lines 947-1078,
duckdb_service.py lines 1455-1603) -/

/-- Gap-column synonym list of `GET /api/gap-analysis/all`. -/
def gapColumnsRoute : List String :=
  ["Have_Gap", "Gap_Y_N", "Gap (Y/N)", "Gap_YN", "have_gap", "gap_y_n", "gap_yn"]

/-- Gap-column synonym list of `get_gap_analysis_kpis` (two more spellings
than the route list). -/
def gapColumnsKpi : List String :=
  ["Have_Gap", "Gap_Y_N", "Gap (Y/N)", "Gap_YN", "have_gap", "gap_y_n",
   "gap_yn", "Have Gap", "Gap Y/N"]

/-- Priority-column synonym list of the route. -/
def priorityColumnsRoute : List String := ["Priority", "PRIORITY", "priority"]

/-- Priority-column synonym list of the KPI function. -/
def priorityColumnsKpi : List String :=
  ["Priority", "PRIORITY", "priority", "Priority_Level", "PRIORITY_LEVEL"]

/-- First synonym present among the table columns. -/
def findCol (column_names : List String) (cands : List String) : Option String :=
  cands.find? (fun c => column_names.contains c)

/-- The CASE rank used to order gap records by priority (NULL and unknown
values fall to the ELSE branch). -/
def priorityRank (v : Option String) : Nat :=
  match v with
  | some s =>
    if s = "P1" || s = "1" || s = "CRITICAL" then 1
    else if s = "P2" || s = "2" || s = "HIGH" then 2
    else if s = "P3" || s = "3" || s = "MEDIUM" then 3
    else if s = "P4" || s = "4" || s = "LOW" then 4
    else 5
  | none => 5

/-- The JSON envelope of `GET /api/gap-analysis/all` (`message` appears only
in the degraded response, `gap_column_used` only in the normal one). -/
structure GapAllResp where
  status : String
  total : Nat
  skip : Nat
  limit : Nat
  hasMore : Bool
  returned_rows : Nat
  data : List Row
  message : Option String
  gap_column_used : Option String
deriving DecidableEq, Repr

/-- `GET /api/gap-analysis/all`: degraded success-shaped response when no
gap synonym resolves, else the rows with gap cell `'Y'`, priority-sorted and
paginated. -/
def get_gap_analysis_data (t : Table) (skip limit : Nat) : GapAllResp :=
  match findCol t.cols gapColumnsRoute with
  | none =>
    ⟨"success", 0, skip, limit, false, 0, [],
      some "No gap indicator column found in database", none⟩
  | some gap_col =>
    let gaps := t.rows.filter (fun r => r.getCell gap_col = some "Y")
    let total := gaps.length
    let sorted := match findCol t.cols priorityColumnsRoute with
      | some pcol => List.insertionSort
          (fun a b : Row => priorityRank (a.getCell pcol) ≤ priorityRank (b.getCell pcol)) gaps
      | none => gaps
    let data := (sorted.drop skip).take limit
    ⟨"success", total, skip, limit, decide (skip + limit < total),
      data.length, data, none, some gap_col⟩

/-- The status attached to one KPI: either the interpolated
`f"{pct}% Gap"` (kept as its numeric part) or a literal text. -/
inductive KpiStatus where
  | pctGap (p : ℚ)
  | text (s : String)
deriving DecidableEq, Repr

/-- One KPI: a count and a status. -/
structure KpiEntry where
  count : Nat
  status : KpiStatus
deriving DecidableEq, Repr

/-- The KPI response of `get_gap_analysis_kpis`. -/
structure GapKpis where
  totalGaps : KpiEntry
  criticalPriority : KpiEntry
  highPriority : KpiEntry
  mediumPriority : KpiEntry
  lowPriority : KpiEntry
  onTrack : KpiEntry
deriving DecidableEq, Repr

/-- Python `str.upper()` on a whole string. -/
def strUpper (s : String) : String := String.mk (upperChars s.data)

/-- `priority_value = str(row[0]).upper() if row[0] else 'UNKNOWN'` followed
by the elif chain, mapped to bucket 1-4 (0 for no bucket). -/
def priorityBucket (v : Option String) : Nat :=
  let pv := match v with
    | some s => if s ≠ "" then strUpper s else "UNKNOWN"
    | none => "UNKNOWN"
  if pv = "P1" || pv = "1" || pv = "CRITICAL" || pv = "HIGH PRIORITY" then 1
  else if pv = "P2" || pv = "2" || pv = "HIGH" then 2
  else if pv = "P3" || pv = "3" || pv = "MEDIUM" || pv = "MED" then 3
  else if pv = "P4" || pv = "4" || pv = "LOW" then 4
  else 0

/-- Status for a priority KPI: the given label when the count is positive,
else `"None"`. -/
def prioStatus (label : String) (n : Nat) : KpiStatus :=
  if n > 0 then .text label else .text "None"

/-- `get_gap_analysis_kpis`: degraded zeros when no gap synonym resolves,
else gap count, percentage, on-track complement, and the priority breakdown
of gap records. -/
def get_gap_analysis_kpis (t : Table) : GapKpis :=
  match findCol t.cols gapColumnsKpi with
  | none =>
    ⟨⟨0, .text "No Gap Column"⟩, ⟨0, .text "N/A"⟩, ⟨0, .text "N/A"⟩,
      ⟨0, .text "N/A"⟩, ⟨0, .text "N/A"⟩, ⟨0, .text "N/A"⟩⟩
  | some gap_col =>
    let total_count := t.rows.length
    let gap_count := t.rows.countP (fun r => r.getCell gap_col = some "Y")
    let gap_percentage : ℚ :=
      if total_count > 0 then round2 ((gap_count : ℚ) / (total_count : ℚ) * 100) else 0
    let on_track_count := total_count - gap_count
    match findCol t.cols priorityColumnsKpi with
    | some pcol =>
      let gaps := t.rows.filter (fun r => r.getCell gap_col = some "Y")
      let p1 := gaps.countP (fun r => priorityBucket (r.getCell pcol) = 1)
      let p2 := gaps.countP (fun r => priorityBucket (r.getCell pcol) = 2)
      let p3 := gaps.countP (fun r => priorityBucket (r.getCell pcol) = 3)
      let p4 := gaps.countP (fun r => priorityBucket (r.getCell pcol) = 4)
      ⟨⟨gap_count, .pctGap gap_percentage⟩,
        ⟨p1, prioStatus "P1 - Past Due" p1⟩,
        ⟨p2, prioStatus "P2 - Due Soon" p2⟩,
        ⟨p3, prioStatus "P3 - Upcoming" p3⟩,
        ⟨p4, prioStatus "P4 - Low Risk" p4⟩,
        ⟨on_track_count, .text "Meeting targets"⟩⟩
    | none =>
      ⟨⟨gap_count, .pctGap gap_percentage⟩,
        ⟨0, .text "No Priority Data"⟩, ⟨0, .text "No Priority Data"⟩,
        ⟨0, .text "No Priority Data"⟩, ⟨0, .text "No Priority Data"⟩,
        ⟨on_track_count, .text "Meeting targets"⟩⟩

/-! # Helper lemmas -/

/-- Every label of a grouped-count distribution is a group key read from
some filtered row. -/
lemma distributionOf_label_mem (rows : List Row) (keyCol valCol : String)
    (e : DistEntry) (he : e ∈ distributionOf rows keyCol valCol) :
    ∃ r ∈ rows, r.getCell keyCol = some e.label := by
  simp only [distributionOf, List.mem_map] at he
  obtain ⟨p, hp, hpe⟩ := he
  rw [distSorted, List.mem_insertionSort] at hp
  simp only [distPairs, List.mem_map] at hp
  obtain ⟨k, hk, hkp⟩ := hp
  rw [distKeys, List.mem_dedup, List.mem_filterMap] at hk
  obtain ⟨r, hr, hrk⟩ := hk
  refine ⟨r, hr, ?_⟩
  have : e.label = k := by rw [← hpe, ← hkp]
  rw [this]
  exact hrk

/-! # C1: unique-value lists -/

/-- Single-column table whose only program value is the literal string
`nan`. -/
def c1Table : Table :=
  ⟨["ENGINE_PROGRAM"], [⟨[("ENGINE_PROGRAM", some "nan")]⟩]⟩

/-- C1 counterexample: `get_unique_values` filters only NULL and the empty
string, so on an accepted filter column the literal string `nan` is
returned, contradicting the claim that unique-value lists never contain
`"nan"`. -/
theorem c1_counterexample :
    "nan" ∈ get_unique_values c1Table "ENGINE_PROGRAM" := by decide

/-- A cell passing the NaN-aware WHERE clause is a non-empty, non-`NaN`,
non-`nan` string. -/
lemma notNanCell_some (s : String) (h : notNanCell (some s) = true) :
    s ≠ "" ∧ s ≠ "nan" ∧ s ≠ "NaN" := by
  simp only [notNanCell, nonNullNonEmpty, Bool.and_eq_true, decide_eq_true_eq,
    ne_eq, Option.some.injEq] at h
  exact ⟨h.1.1, h.2, h.1.2⟩

/-- C1 (amended): unique-value lists from `get_unique_values` never contain
the empty string or a NULL (every element is a non-empty cell value of some
row); the `nan`/`NaN` exclusion holds only in
`get_rm_supplier_by_raw_material`, whose group labels are never empty,
`nan`, or `NaN`. -/
theorem c1_unique_values_no_empty_no_null :
    (∀ (t : Table) (column v : String), v ∈ get_unique_values t column →
      v ≠ "" ∧ ∃ r ∈ t.rows,
        r.getCell (actualColumn (resolveSchema t.cols) column) = some v) ∧
    (∀ (t : Table) (e : DistEntry), e ∈ get_rm_supplier_by_raw_material t →
      e.label ≠ "" ∧ e.label ≠ "nan" ∧ e.label ≠ "NaN") := by
  constructor
  · intro t column v hv
    simp only [get_unique_values, sortAsc] at hv
    rw [List.mem_insertionSort, List.mem_dedup, List.mem_filterMap] at hv
    obtain ⟨r, hr, hm⟩ := hv
    split at hm
    case h_1 w heq =>
      split at hm
      case isTrue hw =>
        obtain rfl : w = v := Option.some.inj hm
        exact ⟨hw, r, hr, heq⟩
      case isFalse hw => exact absurd hm (by simp)
    case h_2 heq => exact absurd hm (by simp)
  · intro t e he
    obtain ⟨r, hr, hrk⟩ := distributionOf_label_mem _ _ _ e he
    simp only [rmRawMaterialFilteredRows, List.mem_filter, Bool.and_eq_true] at hr
    have h1 := hr.2.1
    rw [hrk] at h1
    exact notNanCell_some _ h1

/-- Table exercising the C1 amended theorem at a concrete input. -/
def c1WitnessTable : Table :=
  ⟨["Level_2_Raw_Type", "Level_2_Raw_Material_Supplier"],
   [⟨[("Level_2_Raw_Type", some "ALLOY"),
      ("Level_2_Raw_Material_Supplier", some "RM1")]⟩]⟩

/-- C1 witness: instances of both conjuncts on a concrete table. -/
theorem c1_witness :
    (∃ v ∈ get_unique_values c1WitnessTable "Level_2_Raw_Type",
      v ≠ "" ∧ ∃ r ∈ c1WitnessTable.rows,
        r.getCell (actualColumn (resolveSchema c1WitnessTable.cols)
          "Level_2_Raw_Type") = some v) ∧
    (∃ e ∈ get_rm_supplier_by_raw_material c1WitnessTable,
      e.label ≠ "" ∧ e.label ≠ "nan" ∧ e.label ≠ "NaN") := by
  constructor
  · exact ⟨"ALLOY", by decide,
      c1_unique_values_no_empty_no_null.1 c1WitnessTable "Level_2_Raw_Type"
        "ALLOY" (by decide)⟩
  · have hlen : 0 < (get_rm_supplier_by_raw_material c1WitnessTable).length := by
      decide
    exact ⟨(get_rm_supplier_by_raw_material c1WitnessTable).get ⟨0, hlen⟩,
      List.get_mem _ _ _,
      c1_unique_values_no_empty_no_null.2 c1WitnessTable _ (List.get_mem _ _ _)⟩

/-! # C2: total count independent of the pagination window -/

/-- C2: for any filter request, the `total` of `POST /api/datatable/filter`
is the same for every pagination window: the count query runs the WHERE
clause without LIMIT/OFFSET. -/
theorem c2_total_independent_of_window (t : Table) (req : DatatableReq)
    (k m k' m' : Nat) :
    (filter_datatable t req k m).map DatatableResp.total =
      (filter_datatable t req k' m').map DatatableResp.total := by
  unfold filter_datatable
  cases req.year with
  | none => rfl
  | some ys =>
    by_cases hys : ys = ""
    · simp only [hys, ne_eq, not_true_eq_false, if_false, ite_false]
      rfl
    · simp only [ne_eq, hys, not_false_eq_true, if_true, ite_true]
      cases pyInt ys <;> rfl

/-! # C3: zero filter values mean no filter -/

/-- A filter entry with no values emits no IN clause, wherever it appears
in the dict. -/
lemma filterClauses_append_nil (c : String)
    (fs₁ fs₂ : List (String × List String)) :
    filterClauses (fs₁ ++ (c, []) :: fs₂) = filterClauses (fs₁ ++ fs₂) := by
  simp [filterClauses]

/-- A filter entry with no values writes no parameters, wherever it
appears. -/
lemma filterParamWrites_append_nil (c : String)
    (fs₁ fs₂ : List (String × List String)) :
    filterParamWrites (fs₁ ++ (c, []) :: fs₂) =
      filterParamWrites (fs₁ ++ fs₂) := by
  unfold filterParamWrites
  rw [List.foldl_append, List.foldl_append, List.foldl_cons]
  congr 1
  exact List.append_nil _

/-- Parameter resolution ignores a filter entry with no values. -/
lemma finalParam_append_nil (c : String)
    (fs₁ fs₂ : List (String × List String)) (i : Nat) :
    finalParam (fs₁ ++ (c, []) :: fs₂) i = finalParam (fs₁ ++ fs₂) i := by
  unfold finalParam
  rw [filterParamWrites_append_nil]

/-- An absent `configs`/`modules` parameter emits no clause. -/
lemma optInClauseCol_none (r : Row) (c : Option String) :
    optInClauseCol r c none = true := by
  cases c <;> rfl

/-- An empty `configs`/`modules` parameter emits no clause. -/
lemma optInClauseCol_some_nil (r : Row) (c : Option String) :
    optInClauseCol r c (some []) = true := by
  cases c <;> rfl

/-- Two requests whose rows match identically (and with the same `year`
parameter) produce the same datatable response. -/
lemma filter_datatable_congr (t : Table) (req₁ req₂ : DatatableReq)
    (k l : Nat) (hyear : req₁.year = req₂.year)
    (h : ∀ (yv : Option Int) (r : Row),
      rowMatchesDatatable (datatableColMap t.cols) req₁ yv r =
        rowMatchesDatatable (datatableColMap t.cols) req₂ yv r) :
    filter_datatable t req₁ k l = filter_datatable t req₂ k l := by
  have hmk : ∀ yv, mkDatatableResp t (datatableColMap t.cols) req₁ yv k l =
      mkDatatableResp t (datatableColMap t.cols) req₂ yv k l := by
    intro yv
    unfold mkDatatableResp
    have hfun : rowMatchesDatatable (datatableColMap t.cols) req₁ yv =
        rowMatchesDatatable (datatableColMap t.cols) req₂ yv := funext (h yv)
    rw [hfun]
  simp only [filter_datatable]
  rw [hyear]
  cases hy : req₂.year with
  | none =>
    dsimp only
    rw [hmk]
  | some ys =>
    dsimp only
    by_cases hys : ys = ""
    · simp only [hys, ne_eq, not_true_eq_false, if_false, ite_false]
      rw [hmk]
    · simp only [ne_eq, hys, not_false_eq_true, if_true, ite_true]
      cases pyInt ys with
      | none => rfl
      | some yv =>
        dsimp only
        rw [hmk]

/-- C3: an empty value list for a filter field, at any position of the
dict, is the same as omitting the field in `filter_data`; in the datatable
route every one of the seven list parameters behaves the same way; with no
filters at all every row is returned. -/
theorem c3_zero_values_no_filter :
    (∀ (t : Table) (c : String) (fs₁ fs₂ : List (String × List String)),
      filter_data t (fs₁ ++ (c, []) :: fs₂) = filter_data t (fs₁ ++ fs₂)) ∧
    (∀ t : Table, filter_data t [] = t.rows) ∧
    (∀ (t : Table) (req : DatatableReq) (k m : Nat),
      filter_datatable t { req with productLines := some [] } k m =
        filter_datatable t { req with productLines := none } k m ∧
      filter_datatable t { req with configs := some [] } k m =
        filter_datatable t { req with configs := none } k m ∧
      filter_datatable t { req with suppliers := some [] } k m =
        filter_datatable t { req with suppliers := none } k m ∧
      filter_datatable t { req with rmSuppliers := some [] } k m =
        filter_datatable t { req with rmSuppliers := none } k m ∧
      filter_datatable t { req with hwOwners := some [] } k m =
        filter_datatable t { req with hwOwners := none } k m ∧
      filter_datatable t { req with modules := some [] } k m =
        filter_datatable t { req with modules := none } k m ∧
      filter_datatable t { req with partNumbers := some [] } k m =
        filter_datatable t { req with partNumbers := none } k m) ∧
    (∀ (t : Table) (k m : Nat),
      (filter_datatable t DatatableReq.empty k m).map DatatableResp.total =
        .ok t.rows.length) := by
  refine ⟨?_, ?_, ?_, ?_⟩
  · intro t c fs₁ fs₂
    have hrm : ∀ (r : Row) (cl : String × Nat),
        rowMatchesClause (fs₁ ++ (c, []) :: fs₂) r cl =
          rowMatchesClause (fs₁ ++ fs₂) r cl := by
      intro r cl
      unfold rowMatchesClause
      cases r.getCell cl.1 with
      | none => rfl
      | some v => simp only [finalParam_append_nil]
    simp only [filter_data]
    rw [filterClauses_append_nil]
    have hfun : (fun r => (filterClauses (fs₁ ++ fs₂)).all
        (rowMatchesClause (fs₁ ++ (c, []) :: fs₂) r)) =
        (fun r => (filterClauses (fs₁ ++ fs₂)).all
          (rowMatchesClause (fs₁ ++ fs₂) r)) := by
      funext r
      exact congrArg _ (funext (hrm r))
    rw [hfun]
  · intro t
    rfl
  · intro t req k m
    refine ⟨?_, ?_, ?_, ?_, ?_, ?_, ?_⟩
    · exact filter_datatable_congr t _ _ k m rfl (fun yv r => rfl)
    · exact filter_datatable_congr t _ _ k m rfl (fun yv r => by
        simp only [rowMatchesDatatable, optInClauseCol_some_nil,
          optInClauseCol_none])
    · exact filter_datatable_congr t _ _ k m rfl (fun yv r => rfl)
    · exact filter_datatable_congr t _ _ k m rfl (fun yv r => rfl)
    · exact filter_datatable_congr t _ _ k m rfl (fun yv r => rfl)
    · exact filter_datatable_congr t _ _ k m rfl (fun yv r => by
        simp only [rowMatchesDatatable, optInClauseCol_some_nil,
          optInClauseCol_none])
    · exact filter_datatable_congr t _ _ k m rfl (fun yv r => rfl)
  · intro t k m
    unfold filter_datatable DatatableReq.empty
    simp only [Except.map]
    unfold mkDatatableResp
    have : t.rows.filter (rowMatchesDatatable (datatableColMap t.cols)
        ⟨none, none, none, none, none, none, none, none⟩ none) = t.rows := by
      rw [List.filter_eq_self]
      intro r _
      simp [rowMatchesDatatable, optInClause, optInClauseCol_none]
    rw [this]

/-! # C4: quarter bucketing -/

/-- A parsed date has a month between 1 and 12. -/
lemma tryCastDate_month_bounds (s : String) (d : SqlDate)
    (h : tryCastDate s = some d) : 1 ≤ d.month ∧ d.month ≤ 12 := by
  unfold tryCastDate at h
  split at h
  case h_1 ys ms ds _ =>
    split at h
    case h_1 y m dd _ _ _ =>
      split at h
      case isTrue hcond =>
        obtain rfl := Option.some.inj h
        simp only [Bool.and_eq_true, decide_eq_true_eq] at hcond
        exact ⟨hcond.1.1.1, hcond.1.1.2⟩
      case isFalse => exact absurd h (by simp)
    case h_2 => exact absurd h (by simp)
  case h_2 => exact absurd h (by simp)

/-- C4: a row whose date cell parses as a date `d` is keyed in the
quarterly aggregations by `some (d.year, sqlQuarter d.month)`, where
`sqlQuarter d.month` is exactly the ceiling of `d.month / 3`
(characterized by `month ≤ 3n < month + 3`), and its quarter key renders
as `"YYYY-Qn"`. -/
theorem c4_quarter_bucketing (s : String) (d : SqlDate)
    (h : tryCastDate s = some d) :
    (∀ (sch : Schema) (r : Row), r.getCell sch.target_date_col = some s →
      dateYQ sch r = some (d.year, sqlQuarter d.month)) ∧
    d.month ≤ 3 * sqlQuarter d.month ∧
    3 * sqlQuarter d.month < d.month + 3 ∧
    quarterKeyStr (some (d.year, sqlQuarter d.month)) =
      toString d.year ++ "-Q" ++ toString (sqlQuarter d.month) := by
  have hb := tryCastDate_month_bounds s d h
  refine ⟨?_, ?_, ?_, rfl⟩
  · intro sch r hr
    unfold dateYQ
    rw [hr]
    show (tryCastDate s).map (fun d => (d.year, sqlQuarter d.month)) =
      some (d.year, sqlQuarter d.month)
    rw [h]
    rfl
  · unfold sqlQuarter
    omega
  · unfold sqlQuarter
    omega

/-- C4 witness: the claim's two sample dates. `2025-11-15` lands in
`"2025-Q4"` and `2025-01-01` in `"2025-Q1"`. -/
theorem c4_witness :
    (11 : Nat) ≤ 3 * sqlQuarter 11 ∧ 3 * sqlQuarter 11 < 11 + 3 ∧
    quarterKeyStr (some (2025, sqlQuarter 11)) = "2025-Q4" ∧
    quarterKeyStr (some (2025, sqlQuarter 1)) = "2025-Q1" ∧
    dateYQ (resolveSchema ["Target_Ship_Date"])
      ⟨[("Target_Ship_Date", some "2025-11-15")]⟩ =
        some (2025, sqlQuarter 11) := by
  have h4 := c4_quarter_bucketing "2025-11-15" ⟨2025, 11, 15⟩ (by decide)
  have h1 := c4_quarter_bucketing "2025-01-01" ⟨2025, 1, 1⟩ (by decide)
  refine ⟨h4.2.1, h4.2.2.1, ?_, ?_, ?_⟩
  · rw [h4.2.2.2]
    decide
  · rw [h1.2.2.2]
    decide
  · exact h4.1 (resolveSchema ["Target_Ship_Date"]) _ (by decide)

/-! # C5: unparseable dates in the quarterly aggregations -/

/-- Two matching rows, one with a parseable date and one without. -/
def c5Table : Table :=
  ⟨["Supplier_Type", "Parent_Part_Supplier", "Part_Number", "Target_Ship_Date"],
   [⟨[("Supplier_Type", some "Internal"), ("Parent_Part_Supplier", some "S1"),
      ("Part_Number", some "P1"), ("Target_Ship_Date", some "2025-11-15")]⟩,
    ⟨[("Supplier_Type", some "Internal"), ("Parent_Part_Supplier", some "S1"),
      ("Part_Number", some "P1"), ("Target_Ship_Date", some "garbage")]⟩]⟩

/-- C5 counterexample: the table holds a matching row with a parseable date,
yet `get_supplier_details_by_type` returns `[]` — the `CAST` raised on the
unparseable sibling row and the caught exception discarded every bucket, so
the unparseable row is not merely "excluded". -/
theorem c5_counterexample :
    (∃ r ∈ supplierDetailsRows c5Table "Internal",
      r.getCell "Target_Ship_Date" = some "2025-11-15" ∧
      (tryCastDate "2025-11-15").isSome = true) ∧
    get_supplier_details_by_type c5Table "Internal" = [] := by
  constructor
  · decide
  · decide

/-- C5 (amended): in `get_supplier_details_by_type` and
`get_rm_supplier_details_by_raw_material` a non-NULL unparseable date makes
the SQL `CAST` raise (on a WHERE-matching row, or already in the `years`
filter condition of the RM query); the caught exception turns the whole
result into `[]` (no error reaches the caller, but every bucket is lost).
In `get_cdata`, which uses `TRY_CAST`, a row with an unparseable date
neither errors nor is excluded: it is grouped under a NULL year. -/
theorem c5_unparseable_dates :
    (∀ (t : Table) (st : String),
      (supplierDetailsRows t st).any (badDateRow (resolveSchema t.cols)) = true →
      get_supplier_details_by_type t st = []) ∧
    (∀ (t : Table) (rmt : String) (f : RmFilters),
      rmDetailsRaises t rmt f = true →
      get_rm_supplier_details_by_raw_material t rmt f = []) ∧
    (∀ (t : Table) (r : Row), r ∈ cdataRows t →
      ∀ s : String, r.getCell (resolveSchema t.cols).target_date_col = some s →
      tryCastDate s = none →
      ∃ e ∈ get_cdata t,
        e.pl = pyStrOpt (r.getCell (resolveSchema t.cols).program_col) ∧
        e.year = none) := by
  refine ⟨?_, ?_, ?_⟩
  · intro t st h
    simp only [get_supplier_details_by_type]
    rw [if_pos h]
  · intro t rmt f h
    unfold rmDetailsRaises at h
    simp only [get_rm_supplier_details_by_raw_material]
    cases hw : rmDetailsWhere t rmt f with
    | error e => rfl
    | ok rows =>
      rw [hw] at h
      dsimp only at h ⊢
      rw [if_pos h]
  · intro t r hr s hs hparse
    have hk2 : cdataYM (resolveSchema t.cols) r = none := by
      unfold cdataYM
      rw [hs]
      show (tryCastDate s).map (fun d => (d.year, d.month)) = none
      rw [hparse]
      rfl
    simp only [get_cdata]
    have hmem : cdataKey (resolveSchema t.cols) r ∈
        List.insertionSort (fun a b => cdataKeyLe a b = true)
          ((cdataRows t).map (cdataKey (resolveSchema t.cols))).dedup := by
      rw [List.mem_insertionSort, List.mem_dedup]
      exact List.mem_map_of_mem _ hr
    refine ⟨_, List.mem_map_of_mem _ hmem, ?_, ?_⟩
    · rfl
    · show ((cdataKey (resolveSchema t.cols) r).2.map Prod.fst) = none
      rw [show (cdataKey (resolveSchema t.cols) r).2 =
        cdataYM (resolveSchema t.cols) r from rfl, hk2]
      rfl

/-- Table for the cdata half of the C5 witness. -/
def c5CdataTable : Table :=
  ⟨["ENGINE_PROGRAM", "ESN", "Target_Ship_Date"],
   [⟨[("ENGINE_PROGRAM", some "LM2500"), ("ESN", some "E1"),
      ("Target_Ship_Date", some "garbage")]⟩]⟩

/-- Table for the RM-details half of the C5 witness: one parseable row,
one unparseable sibling. -/
def c5RmTable : Table :=
  ⟨["Level_2_Raw_Type", "Level_2_Raw_Material_Supplier", "Level_2_PN",
    "Target_Ship_Date"],
   [⟨[("Level_2_Raw_Type", some "ALLOY"),
      ("Level_2_Raw_Material_Supplier", some "RM1"),
      ("Level_2_PN", some "RPN1"),
      ("Target_Ship_Date", some "2025-11-15")]⟩,
    ⟨[("Level_2_Raw_Type", some "ALLOY"),
      ("Level_2_Raw_Material_Supplier", some "RM1"),
      ("Level_2_PN", some "RPN1"),
      ("Target_Ship_Date", some "garbage")]⟩]⟩

/-- C5 witness: all three amended behaviors at concrete inputs. -/
theorem c5_witness :
    get_supplier_details_by_type c5Table "Internal" = [] ∧
    get_rm_supplier_details_by_raw_material c5RmTable "ALLOY"
      RmFilters.empty = [] ∧
    get_rm_supplier_details_by_raw_material c5RmTable "ALLOY"
      ⟨none, some ["2025"], none, none, none, none⟩ = [] ∧
    ∃ e ∈ get_cdata c5CdataTable, e.pl = "LM2500" ∧ e.year = none := by
  refine ⟨?_, ?_, ?_, ?_⟩
  · exact c5_unparseable_dates.1 c5Table "Internal" (by decide)
  · exact c5_unparseable_dates.2.1 c5RmTable "ALLOY" RmFilters.empty
      (by decide)
  · exact c5_unparseable_dates.2.1 c5RmTable "ALLOY"
      ⟨none, some ["2025"], none, none, none, none⟩ (by decide)
  · obtain ⟨e, he, h1, h2⟩ := c5_unparseable_dates.2.2 c5CdataTable
      ⟨[("ENGINE_PROGRAM", some "LM2500"), ("ESN", some "E1"),
        ("Target_Ship_Date", some "garbage")]⟩ (by decide) "garbage"
      (by decide) (by decide)
    exact ⟨e, he, h1.trans rfl, h2⟩

/-! # C6: SELECT-only guard on the SQL passthrough endpoints -/

/-- A character uppercasing to `'T'` is not Python whitespace. -/
lemma not_ws_of_upper_eq_T (c : Char) (h : Char.toUpper c = 'T') :
    pyWs c = false := by
  cases hws : pyWs c
  · rfl
  · exfalso
    simp only [pyWs, Bool.or_eq_true, decide_eq_true_eq] at hws
    rcases hws with ((((h1 | h1) | h1) | h1) | h1) | h1 <;> subst h1 <;>
      exact absurd h (by decide)

/-- Right-stripping returns a prefix of the input. -/
lemma rstrip_prefix_self (t : List Char) : rstripChars t <+: t := by
  have h : (t.reverse.dropWhile pyWs).reverse <+: t.reverse.reverse :=
    List.reverse_prefix.mpr (List.dropWhile_suffix _)
  rwa [List.reverse_reverse] at h

/-- If the uppercased head block is exactly `SELECT`, right-stripping the
tail cannot destroy the prefix. -/
lemma select_prefix_rstrip (a b : List Char)
    (ha : upperChars a = "SELECT".data) :
    "SELECT".data <+: upperChars (rstripChars (a ++ b)) := by
  have hlen : a.length = 6 := by
    have h := congrArg List.length ha
    simpa [upperChars] using h
  obtain ⟨c, r, hcr⟩ : ∃ c r, a.reverse = c :: r := by
    cases hrev : a.reverse with
    | nil =>
      exfalso
      have h := congrArg List.length hrev
      simp [hlen] at h
    | cons c r => exact ⟨c, r, rfl⟩
  have hTc : Char.toUpper c = 'T' := by
    have h2 : List.map Char.toUpper a.reverse = ("SELECT".data).reverse := by
      rw [List.map_reverse]
      exact congrArg List.reverse ha
    rw [hcr] at h2
    simpa using congrArg List.head? h2
  have hws : pyWs c = false := not_ws_of_upper_eq_T c hTc
  unfold rstripChars
  rw [List.reverse_append, List.dropWhile_append]
  by_cases hbe : (b.reverse.dropWhile pyWs).isEmpty
  · rw [if_pos hbe, hcr, List.dropWhile_cons, if_neg (by simp [hws]), ← hcr,
      List.reverse_reverse, ha]
  · rw [if_neg hbe, List.reverse_append, List.reverse_reverse]
    unfold upperChars
    rw [List.map_append]
    rw [show List.map Char.toUpper a = "SELECT".data from ha]
    exact List.prefix_append _ _

/-- The spec-side check is equivalent to `SELECT` being a prefix of the
uppercased left-stripped statement. -/
lemma select_spec_prefix_iff (t : List Char) :
    upperChars (t.take ("SELECT".data.length)) = upperChars "SELECT".data ↔
      "SELECT".data <+: upperChars t := by
  rw [show upperChars "SELECT".data = "SELECT".data from by decide]
  rw [show ("SELECT".data.length) = 6 from rfl]
  constructor
  · intro h
    have hsplit : upperChars t = "SELECT".data ++ upperChars (t.drop 6) := by
      conv_lhs => rw [← List.take_append_drop 6 t]
      unfold upperChars at h ⊢
      rw [List.map_append, h]
    rw [hsplit]
    exact List.prefix_append _ _
  · intro h
    have h1 := List.prefix_iff_eq_take.mp h
    rw [show (("SELECT".data).length) = 6 from rfl] at h1
    unfold upperChars at h1 ⊢
    rw [← List.map_take] at h1
    exact h1.symm

/-- The code's guard (`strip` both ends, uppercase, `startswith`) agrees
with the spec's description (leading whitespace trimmed, case-insensitive
`SELECT` prefix) on every string. -/
lemma selectGuard_eq_spec (sql : String) :
    selectGuard sql = specSelectOnly sql := by
  rw [Bool.eq_iff_iff]
  unfold selectGuard specSelectOnly stripChars
  rw [List.isPrefixOf_iff_prefix, decide_eq_true_iff]
  rw [select_spec_prefix_iff]
  constructor
  · intro h
    exact h.trans (List.IsPrefix.map _ (rstrip_prefix_self _))
  · intro h
    have h1 := List.prefix_iff_eq_take.mp h
    rw [show (("SELECT".data).length) = 6 from rfl] at h1
    have ha : upperChars ((lstripChars sql.data).take 6) = "SELECT".data := by
      unfold upperChars
      rw [List.map_take]
      exact h1.symm
    have h2 := select_prefix_rstrip ((lstripChars sql.data).take 6)
      ((lstripChars sql.data).drop 6) ha
    rwa [List.take_append_drop] at h2

/-- C6: the passthrough endpoints execute a statement exactly when it
begins with `SELECT` case-insensitively after trimming leading whitespace,
and reject it with HTTP 400 (without executing) otherwise; `/api/output-query`
behaves the same once the Output sheet is loaded. -/
theorem c6_select_only (run : String → List Row) (sql : String) :
    (execute_query run sql = .ok (run sql) ↔ specSelectOnly sql = true) ∧
    (specSelectOnly sql = false → execute_query run sql = .error 400) ∧
    (query_output_data run true sql = .ok (run sql) ↔
      specSelectOnly sql = true) ∧
    (specSelectOnly sql = false →
      query_output_data run true sql = .error 400) := by
  have hg := selectGuard_eq_spec sql
  unfold execute_query query_output_data
  rw [hg]
  simp only [not_true_eq_false, if_false]
  cases hs : specSelectOnly sql <;>
    simp

/-- C6 witness: one accepted and one rejected statement on both endpoints. -/
theorem c6_witness :
    execute_query (fun _ => []) "  select 1" = .ok [] ∧
    execute_query (fun _ => []) "DROP TABLE t" = .error 400 ∧
    query_output_data (fun _ => []) true "DROP TABLE t" = .error 400 :=
  ⟨(c6_select_only (fun _ => []) "  select 1").1.mpr (by decide),
   (c6_select_only (fun _ => []) "DROP TABLE t").2.1 (by decide),
   (c6_select_only (fun _ => []) "DROP TABLE t").2.2.2 (by decide)⟩

/-! # C7: grouped counts and percentages -/

/-- Rounding to two decimals moves a rational by at most `1/200`. -/
lemma round2_sub_le (q : ℚ) : |round2 q - q| ≤ 1 / 200 := by
  unfold round2
  have h := abs_sub_round (100 * q)
  rw [abs_sub_comm] at h
  have heq : ((round (100 * q) : ℤ) : ℚ) / 100 - q =
      (((round (100 * q) : ℤ) : ℚ) - 100 * q) / 100 := by ring
  rw [heq, abs_div, show |(100 : ℚ)| = 100 from by norm_num]
  linarith

/-- Summing the two-decimal roundings moves a sum by at most `n/200`. -/
lemma sum_map_round2_err (qs : List ℚ) :
    |(qs.map round2).sum - qs.sum| ≤ (qs.length : ℚ) * (1 / 200) := by
  induction qs with
  | nil => simp
  | cons q l ih =>
    simp only [List.map_cons, List.sum_cons, List.length_cons]
    have h1 := round2_sub_le q
    have h2 : |round2 q + (l.map round2).sum - (q + l.sum)| ≤
        |round2 q - q| + |(l.map round2).sum - l.sum| := by
      have := abs_add (round2 q - q) ((l.map round2).sum - l.sum)
      calc |round2 q + (l.map round2).sum - (q + l.sum)|
          = |(round2 q - q) + ((l.map round2).sum - l.sum)| := by ring_nf
        _ ≤ _ := this
    push_cast
    linarith

/-- Pulling a constant factor out of a mapped sum over the counts. -/
lemma sum_map_snd_mul (l : List (String × Nat)) (c : ℚ) :
    (l.map (fun p => (p.2 : ℚ) * c)).sum = ((l.map Prod.snd).sum : ℚ) * c := by
  induction l with
  | nil => simp
  | cons p l ih =>
    simp only [List.map_cons, List.sum_cons, ih]
    push_cast
    ring

/-- Every grouped count of `distPairs` is positive when every row carries a
non-empty value cell. -/
lemma distPairs_snd_pos (rows : List Row) (keyCol valCol : String)
    (hval : ∀ r ∈ rows, nonNullNonEmpty (r.getCell valCol) = true) :
    ∀ p ∈ distPairs rows keyCol valCol, 0 < p.2 := by
  intro p hp
  simp only [distPairs, List.mem_map] at hp
  obtain ⟨k, hk, hkp⟩ := hp
  rw [distKeys, List.mem_dedup, List.mem_filterMap] at hk
  obtain ⟨r, hr, hrk⟩ := hk
  subst hkp
  show 0 < distinctInGroup rows keyCol k valCol
  unfold distinctInGroup
  have hrmem : r ∈ rows.filter (fun r => r.getCell keyCol = some k) := by
    rw [List.mem_filter]
    exact ⟨hr, by simp [hrk]⟩
  obtain ⟨v, hv⟩ : ∃ v, r.getCell valCol = some v := by
    have h := hval r hr
    unfold nonNullNonEmpty at h
    cases hcell : r.getCell valCol with
    | none => rw [hcell] at h; exact absurd h (by simp)
    | some v => exact ⟨v, rfl⟩
  have hvm : v ∈ ((rows.filter (fun r => r.getCell keyCol = some k)).filterMap
      (fun r => r.getCell valCol)) := by
    rw [List.mem_filterMap]
    exact ⟨r, hrmem, hv⟩
  rw [← List.mem_dedup] at hvm
  exact List.length_pos.mpr (List.ne_nil_of_mem hvm)

/-- The spec of the shared distribution shaping: positive denominator, the
exact percentage formula, and the `n/200` bound on the percentage sum. -/
lemma distributionOf_spec (rows : List Row) (keyCol valCol : String)
    (hval : ∀ r ∈ rows, nonNullNonEmpty (r.getCell valCol) = true)
    (hne : distributionOf rows keyCol valCol ≠ []) :
    0 < ((distributionOf rows keyCol valCol).map DistEntry.count).sum ∧
    (∀ e ∈ distributionOf rows keyCol valCol, e.percentage =
      round2 ((e.count : ℚ) /
        (((distributionOf rows keyCol valCol).map DistEntry.count).sum : ℚ)
        * 100)) ∧
    |((distributionOf rows keyCol valCol).map DistEntry.percentage).sum - 100| ≤
      ((distributionOf rows keyCol valCol).length : ℚ) * (1 / 200) := by
  have hperm : List.Perm (distSorted rows keyCol valCol)
      (distPairs rows keyCol valCol) := List.perm_insertionSort _ _
  have hcount : ((distributionOf rows keyCol valCol).map DistEntry.count).sum =
      distTotal rows keyCol valCol := by
    unfold distributionOf distTotal
    rw [List.map_map]
    exact ((hperm.map Prod.snd).sum_eq)
  have hsne : distSorted rows keyCol valCol ≠ [] := by
    intro hcon
    apply hne
    unfold distributionOf
    rw [hcon]
    rfl
  have htpos : 0 < distTotal rows keyCol valCol := by
    obtain ⟨p, hp⟩ := List.exists_mem_of_ne_nil _ hsne
    have hppairs : p ∈ distPairs rows keyCol valCol := hperm.subset hp
    have hpos := distPairs_snd_pos rows keyCol valCol hval p hppairs
    unfold distTotal
    by_contra hcon
    push_neg at hcon
    interval_cases h : ((distPairs rows keyCol valCol).map Prod.snd).sum
    have := List.sum_eq_zero_iff.mp h _ (List.mem_map_of_mem Prod.snd hppairs)
    omega
  refine ⟨by rw [hcount]; exact htpos, ?_, ?_⟩
  · intro e he
    rw [hcount]
    simp only [distributionOf, List.mem_map] at he
    obtain ⟨p, _, hpe⟩ := he
    rw [← hpe]
    simp only [if_pos htpos]
  · have hmap : (distributionOf rows keyCol valCol).map DistEntry.percentage =
        ((distSorted rows keyCol valCol).map
          (fun p => (p.2 : ℚ) / (distTotal rows keyCol valCol : ℚ) * 100)).map
            round2 := by
      unfold distributionOf
      rw [List.map_map, List.map_map]
      refine List.map_congr_left (fun p _ => ?_)
      simp only [Function.comp_apply, if_pos htpos]
    have hqs : ((distSorted rows keyCol valCol).map
        (fun p => (p.2 : ℚ) / (distTotal rows keyCol valCol : ℚ) * 100)).sum
          = 100 := by
      have hfun : ((distSorted rows keyCol valCol).map
          (fun p => (p.2 : ℚ) / (distTotal rows keyCol valCol : ℚ) * 100)) =
          ((distSorted rows keyCol valCol).map
            (fun p => (p.2 : ℚ) * (100 / (distTotal rows keyCol valCol : ℚ)))) := by
        refine List.map_congr_left (fun p _ => ?_)
        ring
      rw [hfun, sum_map_snd_mul, (hperm.map Prod.snd).sum_eq]
      have : ((distTotal rows keyCol valCol : ℚ)) ≠ 0 := by
        exact_mod_cast Nat.pos_iff_ne_zero.mp htpos
      rw [show (((distPairs rows keyCol valCol).map Prod.snd).sum : ℚ) =
        (distTotal rows keyCol valCol : ℚ) from by unfold distTotal; norm_cast]
      field_simp
    have hlen : ((distSorted rows keyCol valCol).map
        (fun p => (p.2 : ℚ) / (distTotal rows keyCol valCol : ℚ) * 100)).length =
          (distributionOf rows keyCol valCol).length := by
      unfold distributionOf
      rw [List.length_map, List.length_map]
    rw [hmap]
    have herr := sum_map_round2_err ((distSorted rows keyCol valCol).map
      (fun p => (p.2 : ℚ) / (distTotal rows keyCol valCol : ℚ) * 100))
    rw [hqs, hlen] at herr
    exact herr

/-- C7 counterexample table: two rows of one supplier type share one
supplier, so the distinct-supplier counts sum to 2 while 3 rows match. -/
def c7Table : Table :=
  ⟨["Supplier_Type", "Parent_Part_Supplier"],
   [⟨[("Supplier_Type", some "Internal"), ("Parent_Part_Supplier", some "S1")]⟩,
    ⟨[("Supplier_Type", some "Internal"), ("Parent_Part_Supplier", some "S1")]⟩,
    ⟨[("Supplier_Type", some "AEO"), ("Parent_Part_Supplier", some "S2")]⟩]⟩

/-- C7 counterexample: the counts are `COUNT(DISTINCT supplier)` per group,
so their sum (2) differs from the number of rows matching the filter (3),
refuting `sum(count) == totalRowsMatchingFilter`. -/
theorem c7_counterexample :
    ((get_supplier_type_distribution c7Table).map DistEntry.count).sum = 2 ∧
    (supplierTypeFilteredRows c7Table).length = 3 ∧
    ((get_supplier_type_distribution c7Table).map DistEntry.count).sum ≠
      (supplierTypeFilteredRows c7Table).length := by
  refine ⟨by decide, by decide, by decide⟩

/-- C7 (amended): in both grouped-count aggregations, each percentage is
`round(count / total * 100, 2)` where `total` is the sum of the displayed
distinct-value counts (positive on a non-empty result); that sum equals the
number of distinct (group, value) combinations rather than the number of
matching rows; and the percentages sum to 100 within `n/200` for `n`
groups (hence within 0.1 for at most 20 groups). -/
theorem c7_grouped_counts :
    (∀ t : Table, get_supplier_type_distribution t ≠ [] →
      0 < ((get_supplier_type_distribution t).map DistEntry.count).sum ∧
      (∀ e ∈ get_supplier_type_distribution t, e.percentage =
        round2 ((e.count : ℚ) /
          (((get_supplier_type_distribution t).map DistEntry.count).sum : ℚ)
          * 100)) ∧
      |((get_supplier_type_distribution t).map DistEntry.percentage).sum - 100|
        ≤ ((get_supplier_type_distribution t).length : ℚ) * (1 / 200)) ∧
    (∀ t : Table, get_rm_supplier_by_raw_material t ≠ [] →
      0 < ((get_rm_supplier_by_raw_material t).map DistEntry.count).sum ∧
      (∀ e ∈ get_rm_supplier_by_raw_material t, e.percentage =
        round2 ((e.count : ℚ) /
          (((get_rm_supplier_by_raw_material t).map DistEntry.count).sum : ℚ)
          * 100)) ∧
      |((get_rm_supplier_by_raw_material t).map DistEntry.percentage).sum - 100|
        ≤ ((get_rm_supplier_by_raw_material t).length : ℚ) * (1 / 200)) := by
  constructor
  · intro t hne
    unfold get_supplier_type_distribution at hne ⊢
    by_cases hcol : ¬ t.cols.contains "Supplier_Type"
    · rw [if_pos hcol] at hne
      exact absurd rfl hne
    · rw [if_neg hcol] at hne ⊢
      refine distributionOf_spec _ _ _ ?_ hne
      intro r hr
      rw [supplierTypeFilteredRows, List.mem_filter, Bool.and_eq_true] at hr
      exact hr.2.2
  · intro t hne
    unfold get_rm_supplier_by_raw_material at hne ⊢
    refine distributionOf_spec _ _ _ ?_ hne
    intro r hr
    rw [rmRawMaterialFilteredRows, List.mem_filter, Bool.and_eq_true] at hr
    have h := hr.2.2
    unfold notNanCell at h
    rw [Bool.and_eq_true, Bool.and_eq_true] at h
    exact h.1.1

/-- C7 witness: the amended properties at the concrete counterexample
table. -/
theorem c7_witness :
    0 < ((get_supplier_type_distribution c7Table).map DistEntry.count).sum ∧
    |((get_supplier_type_distribution c7Table).map DistEntry.percentage).sum
      - 100| ≤ ((get_supplier_type_distribution c7Table).length : ℚ) *
        (1 / 200) := by
  have h := c7_grouped_counts.1 c7Table
    (List.ne_nil_of_length_pos (by decide))
  exact ⟨h.1, h.2.2⟩

/-! # C8: gap analysis without a gap column -/

/-- C8: when no gap-column synonym resolves, both gap-analysis operations
return their documented success-shaped degraded responses (empty record
list, zero counts) instead of raising. -/
theorem c8_missing_gap_column_graceful (t : Table) (skip limit : Nat) :
    (findCol t.cols gapColumnsRoute = none →
      get_gap_analysis_data t skip limit =
        ⟨"success", 0, skip, limit, false, 0, [],
          some "No gap indicator column found in database", none⟩) ∧
    (findCol t.cols gapColumnsKpi = none →
      get_gap_analysis_kpis t =
        ⟨⟨0, .text "No Gap Column"⟩, ⟨0, .text "N/A"⟩, ⟨0, .text "N/A"⟩,
          ⟨0, .text "N/A"⟩, ⟨0, .text "N/A"⟩, ⟨0, .text "N/A"⟩⟩) := by
  constructor
  · intro h
    unfold get_gap_analysis_data
    rw [h]
  · intro h
    unfold get_gap_analysis_kpis
    rw [h]

/-- Table with no gap-column synonym at all. -/
def c8WitnessTable : Table :=
  ⟨["ENGINE_PROGRAM"], [⟨[("ENGINE_PROGRAM", some "LM2500")]⟩]⟩

/-- C8 witness: both degraded responses on a concrete gap-less table. -/
theorem c8_witness :
    get_gap_analysis_data c8WitnessTable 0 1000 =
      ⟨"success", 0, 0, 1000, false, 0, [],
        some "No gap indicator column found in database", none⟩ ∧
    get_gap_analysis_kpis c8WitnessTable =
      ⟨⟨0, .text "No Gap Column"⟩, ⟨0, .text "N/A"⟩, ⟨0, .text "N/A"⟩,
        ⟨0, .text "N/A"⟩, ⟨0, .text "N/A"⟩, ⟨0, .text "N/A"⟩⟩ :=
  ⟨(c8_missing_gap_column_graceful c8WitnessTable 0 1000).1 (by decide),
   (c8_missing_gap_column_graceful c8WitnessTable 0 1000).2 (by decide)⟩

/-! # C9: gap KPI invariants -/

/-- C9: with a gap column present, `totalGaps.count` is the number of rows
whose gap cell is `'Y'`, `totalGaps.count + onTrack.count` is the row count
of the table, and the reported percentage is
`round(gaps / total * 100, 2)` (0 for an empty table). -/
theorem c9_gap_kpi_invariant (t : Table) (g : String)
    (h : findCol t.cols gapColumnsKpi = some g) :
    (get_gap_analysis_kpis t).totalGaps.count =
      t.rows.countP (fun r => r.getCell g = some "Y") ∧
    (get_gap_analysis_kpis t).totalGaps.count +
      (get_gap_analysis_kpis t).onTrack.count = t.rows.length ∧
    (get_gap_analysis_kpis t).totalGaps.status = .pctGap
      (if t.rows.length > 0 then
        round2 ((t.rows.countP (fun r => r.getCell g = some "Y") : ℚ) /
          (t.rows.length : ℚ) * 100)
      else 0) := by
  have hle := List.countP_le_length
    (p := fun r => r.getCell g = some "Y") (l := t.rows)
  unfold get_gap_analysis_kpis
  rw [h]
  cases hfp : findCol t.cols priorityColumnsKpi with
  | none =>
    refine ⟨rfl, ?_, rfl⟩
    dsimp only
    omega
  | some pcol =>
    refine ⟨rfl, ?_, rfl⟩
    dsimp only
    omega

/-- Table with a `Have_Gap` column for the C9 witness. -/
def c9WitnessTable : Table :=
  ⟨["ENGINE_PROGRAM", "Have_Gap"],
   [⟨[("ENGINE_PROGRAM", some "LM2500"), ("Have_Gap", some "Y")]⟩,
    ⟨[("ENGINE_PROGRAM", some "LM6000"), ("Have_Gap", some "N")]⟩]⟩

/-- C9 witness: the KPI invariants on a concrete two-row table. -/
theorem c9_witness :
    (get_gap_analysis_kpis c9WitnessTable).totalGaps.count =
      c9WitnessTable.rows.countP (fun r => r.getCell "Have_Gap" = some "Y") ∧
    (get_gap_analysis_kpis c9WitnessTable).totalGaps.count +
      (get_gap_analysis_kpis c9WitnessTable).onTrack.count =
        c9WitnessTable.rows.length ∧
    (get_gap_analysis_kpis c9WitnessTable).totalGaps.status = .pctGap
      (if c9WitnessTable.rows.length > 0 then
        round2 ((c9WitnessTable.rows.countP
            (fun r => r.getCell "Have_Gap" = some "Y") : ℚ) /
          (c9WitnessTable.rows.length : ℚ) * 100)
      else 0) :=
  c9_gap_kpi_invariant c9WitnessTable "Have_Gap" (by decide)

/-! # C10: year extraction never returns an empty list -/

/-- C10: `get_years_from_date` never returns `[]`; when neither extraction
strategy finds a year it returns exactly the fixed fallback list. -/
theorem c10_years_nonempty_fallback (t : Table) (column : String) :
    get_years_from_date t column ≠ [] ∧
    (yearsStrategyCast t (yearsResolvedColumn t column) = [] →
      yearsStrategySubstring t (yearsResolvedColumn t column) = [] →
      get_years_from_date t column = fallbackYears) := by
  constructor
  · simp only [get_years_from_date]
    by_cases h1 : (yearsStrategyCast t (yearsResolvedColumn t column)).isEmpty
    · by_cases h2 :
          (yearsStrategySubstring t (yearsResolvedColumn t column)).isEmpty
      · simp [h1, h2, fallbackYears]
      · simp only [h1, if_true, h2, if_false]
        simpa [List.isEmpty_iff] using h2
    · simp only [h1, if_false]
      rw [if_neg (by simpa using h1)]
      simpa [List.isEmpty_iff] using h1
  · intro h1 h2
    simp [get_years_from_date, h1, h2]

/-- Empty-table instance for the C10 witness. -/
def c10WitnessTable : Table := ⟨["Target_Ship_Date"], []⟩

/-- C10 witness: on an empty table the fallback list is returned and is
non-empty. -/
theorem c10_witness :
    get_years_from_date c10WitnessTable "Target_Ship_Date" = fallbackYears ∧
    get_years_from_date c10WitnessTable "Target_Ship_Date" ≠ [] :=
  ⟨(c10_years_nonempty_fallback c10WitnessTable "Target_Ship_Date").2
      (by decide) (by decide),
   (c10_years_nonempty_fallback c10WitnessTable "Target_Ship_Date").1⟩

end AEO
